import Mathlib

/-!
Verification of the chat relay server (`server.js`).

The file shallowly embeds the server's socket handlers (`join room`,
`chat message`, `disconnect`), its per-room bounded chat history, and the
upload pipeline (multer disk storage filename, MIME allow-list filter,
`POST /upload` route), and proves the spec's claims about them.

Modelling conventions:
- JS objects used as maps (`chatHistories`, `roomUsers`) become Lean
  functions with default values. The code's lazy initialisation
  (`if (!chatHistories[taskId]) chatHistories[taskId] = []`) is a no-op in
  this model, because an absent key and the freshly assigned `[]` are
  observationally the same here (an empty JS array is truthy, so an
  existing empty entry is never re-assigned by the code either).
- JS string falsiness (`!x` is true for `undefined` and `""`) is modelled
  by `falsy` over `Option String`.
- `Date.now()` and the `Math.random()` draws are inputs of each operation
  (the dispatcher serialises handlers, so each send/upload sees one
  timestamp and one random draw).
- Emitted socket.io events are recorded as a list of `Emit` values:
  `Emit.toSocket` for point-to-point emits (`socket.emit`) and
  `Emit.toRoom` for room broadcasts (`io.to(room).emit`). A recorded
  payload is an immutable value, matching socket.io's serialisation of
  the payload at emit time.
-/

namespace Chat

/-- JS truthiness test for an optional string: `!x` holds for a missing
value (`undefined`) and for the empty string. -/
def falsy : Option String → Bool
  | none => true
  | some s => s == ""

/-- The `user` / `sender` payload objects `{auid, name}`; either field may
be absent or empty, since they are externally supplied. -/
structure UserPayload where
  auid : Option String
  name : Option String
deriving DecidableEq

/-- The `files` entries embedded in messages and returned by the upload
route: `{name, url, type, size}`. -/
structure FileMeta where
  name : String
  url : String
  type : String
  size : Nat
deriving DecidableEq

/-- A chat message as built by the `chat message` handler (`msgData`). -/
structure MsgData where
  id : String
  sender : UserPayload
  message : String
  files : List FileMeta
  timestamp : Nat
  taskId : String
deriving DecidableEq

/-- Server-to-client events emitted by the handlers. -/
inductive ClientEvent where
  | chatHistory (msgs : List MsgData)
  | userJoined (taskId : String) (user : UserPayload)
  | chatMessage (m : MsgData)
  | userLeft (taskId : String) (user : UserPayload)
  | errorMessage (msg : String)
deriving DecidableEq

/-- An emitted event: point-to-point (`socket.emit`) or a room broadcast
(`io.to(room).emit`, delivered to the room's members at call time). -/
inductive Emit where
  | toSocket (sid : String) (ev : ClientEvent)
  | toRoom (room : String) (ev : ClientEvent)
deriving DecidableEq

/-- Per-socket data: `socket.userData` (absent until a successful join)
and `socket.rooms` (socket.io keeps the socket's own id room in it). -/
structure SocketData where
  userData : Option UserPayload
  rooms : List String
deriving DecidableEq

/-- The server's mutable state: `chatHistories`, `roomUsers` (room id →
socket id → user object, insertion-ordered like a JS object), and the
per-socket data. -/
structure ServerState where
  chatHistories : String → List MsgData
  roomUsers : String → List (String × UserPayload)
  sockets : String → SocketData

/-- Pointwise update of a string-keyed map. -/
def upd {α : Type} (f : String → α) (k : String) (v : α) : String → α :=
  fun k' => if k' = k then v else f k'

/-- JS object property assignment `o[k] = v`: an existing key keeps its
position, a new key is appended. -/
def setAssoc {α : Type} : List (String × α) → String → α → List (String × α)
  | [], k, v => [(k, v)]
  | (k', v') :: rest, k, v =>
    if k' = k then (k, v) :: rest else (k', v') :: setAssoc rest k v

/-- JS `delete o[k]`. -/
def removeAssoc {α : Type} (l : List (String × α)) (k : String) : List (String × α) :=
  l.filter (fun p => p.1 ≠ k)

/-- JS `o[k]` on an object used as a map. -/
def lookupAssoc {α : Type} : List (String × α) → String → Option α
  | [], _ => none
  | (k', v) :: rest, k => if k' = k then some v else lookupAssoc rest k

/-! ### Decimal representation of numbers

JS template literals coerce a number with `ToString`, producing its
decimal representation. `natToDec` is that representation for the
naturals used here (`Date.now()`, `Math.round(Math.random() * 1E9)`);
`decToNat_decDigits` below certifies it is the decimal representation. -/

/-- Decimal digit list of `n` (most significant first, empty for 0). -/
def decDigits (n : Nat) : List Char :=
  if h : n = 0 then [] else decDigits (n / 10) ++ [Nat.digitChar (n % 10)]
decreasing_by exact Nat.div_lt_self (Nat.pos_of_ne_zero h) (by decide)

/-- JS `ToString` of a natural number. -/
def natToDec (n : Nat) : String :=
  if n = 0 then "0" else String.mk (decDigits n)

/-- Value of a decimal digit string (fold reading left to right). -/
def decToNat (l : List Char) : Nat :=
  l.foldl (fun acc c => 10 * acc + (c.toNat - 48)) 0

/-! ### `join room` handler (`server.js` lines 137-161) -/

/-- The `missing` list the handler reports for an invalid join. -/
def joinMissing (taskId : Option String) (user : Option UserPayload) : List String :=
  (if falsy taskId then ["taskId"] else []) ++
  (match user with
   | none => ["user object"]
   | some u =>
     (if falsy u.auid then ["user.auid"] else []) ++
     (if falsy u.name then ["user.name"] else []))

/-- The point-to-point error emitted for an invalid join. -/
def joinErrorEmit (sid : String) (taskId : Option String) (user : Option UserPayload) : Emit :=
  Emit.toSocket sid (ClientEvent.errorMessage
    ("Failed to join room. Missing required data: " ++
      String.intercalate ", " (joinMissing taskId user) ++ "."))

/-- The `join room` handler. On valid data it sets `socket.userData`,
joins the room, records the user in `roomUsers`, broadcasts `user joined`
to the room, and emits the room's history to the joiner only. -/
def joinRoomHandler (st : ServerState) (sid : String) (taskId : Option String)
    (user : Option UserPayload) : ServerState × List Emit :=
  match taskId, user with
  | some tid, some u =>
    if falsy (some tid) || falsy u.auid || falsy u.name then
      (st, [joinErrorEmit sid (some tid) (some u)])
    else
      let sk := st.sockets sid
      let st' : ServerState :=
        { st with
          sockets := upd st.sockets sid
            { userData := some u
              rooms := if tid ∈ sk.rooms then sk.rooms else sk.rooms ++ [tid] }
          roomUsers := upd st.roomUsers tid (setAssoc (st.roomUsers tid) sid u) }
      (st', [Emit.toRoom tid (ClientEvent.userJoined tid u),
             Emit.toSocket sid (ClientEvent.chatHistory (st.chatHistories tid))])
  | _, _ => (st, [joinErrorEmit sid taskId user])

/-! ### `chat message` handler (`server.js` lines 163-188) -/

def MAX_HISTORY_LENGTH : Nat := 100

/-- The generated message id `msg-<Date.now()>-<random base36 chunk>`. -/
def msgId (now : Nat) (rand : String) : String :=
  "msg-" ++ natToDec now ++ "-" ++ rand

/-- The `msgData` object built by the handler. -/
def mkMsgData (tid : String) (sndr : UserPayload) (message : Option String)
    (files : Option (List FileMeta)) (now : Nat) (rand : String) : MsgData :=
  { id := msgId now rand
    sender := sndr
    message := message.getD ""
    files := files.getD []
    timestamp := now
    taskId := tid }

/-- `push` followed by the history bound: `if (length > MAX_HISTORY_LENGTH)
splice(0, length - MAX_HISTORY_LENGTH)`. -/
def pushBounded (h : List MsgData) (m : MsgData) : List MsgData :=
  let h' := h ++ [m]
  if MAX_HISTORY_LENGTH < h'.length then h'.drop (h'.length - MAX_HISTORY_LENGTH) else h'

/-- The point-to-point error emitted for an invalid `chat message`. -/
def sendErrorEmit (sid : String) : Emit :=
  Emit.toSocket sid (ClientEvent.errorMessage
    "Cannot send message. Missing task ID or sender information.")

/-- The `chat message` handler. On valid data it builds `msgData`, appends
it to the room's history (bounded at 100), and broadcasts it to the room.
It never consults `roomUsers` or `socket.rooms`. -/
def chatMessageHandler (st : ServerState) (sid : String) (taskId : Option String)
    (sender : Option UserPayload) (message : Option String) (files : Option (List FileMeta))
    (now : Nat) (rand : String) : ServerState × List Emit :=
  match taskId, sender with
  | some tid, some sndr =>
    if falsy (some tid) || falsy sndr.auid || falsy sndr.name then
      (st, [sendErrorEmit sid])
    else
      let m := mkMsgData tid sndr message files now rand
      ({ st with chatHistories := upd st.chatHistories tid (pushBounded (st.chatHistories tid) m) },
       [Emit.toRoom tid (ClientEvent.chatMessage m)])
  | _, _ => (st, [sendErrorEmit sid])

/-! ### `disconnect` handler (`server.js` lines 190-211) -/

/-- First six characters of a socket id (`socket.id.substring(0,6)`). -/
def takeStr (n : Nat) (s : String) : String := String.mk (s.data.take n)

/-- The placeholder identity used when no user data was ever bound. -/
def genericUser (sid : String) : UserPayload :=
  { auid := some ("socket_" ++ takeStr 6 sid)
    name := some ("User " ++ takeStr 6 sid) }

/-- Body of the `socket.rooms.forEach` loop in the disconnect handler. -/
def disconnectBody (sid : String) (user : Option UserPayload)
    (acc : ServerState × List Emit) (room : String) : ServerState × List Emit :=
  if room ≠ sid then
    match user with
    | some u =>
      ({ acc.1 with roomUsers := upd acc.1.roomUsers room (removeAssoc (acc.1.roomUsers room) sid) },
       acc.2 ++ [Emit.toRoom room (ClientEvent.userLeft room u)])
    | none =>
      (acc.1, acc.2 ++ [Emit.toRoom room (ClientEvent.userLeft room (genericUser sid))])
  else acc

/-- The registered `disconnect` callback, as a function of the socket data
it observes when it runs: it iterates over `socket.rooms`, broadcasting
`user left` and removing the `roomUsers` entry for each room other than
the socket's own id room. -/
def disconnectHandler (st : ServerState) (sid : String) (user : Option UserPayload)
    (rooms : List String) : ServerState × List Emit :=
  rooms.foldl (disconnectBody sid user) (st, [])

/-- The full `disconnect` event. socket.io (v3/v4, as pinned by
`const { Server } = require('socket.io')` and the `Set`-typed
`socket.rooms`) removes the socket from all its rooms *before* emitting
`disconnect`; the handler therefore observes an empty `socket.rooms`.
(The `disconnecting` event, which still sees the rooms, is not used by
this server.) -/
def disconnectStep (st : ServerState) (sid : String) : ServerState × List Emit :=
  let sk := st.sockets sid
  let st' : ServerState :=
    { st with sockets := upd st.sockets sid { userData := sk.userData, rooms := [] } }
  disconnectHandler st' sid sk.userData []

/-! ### Traces of socket events -/

/-- A client-originated socket event, with the timestamp and random draw
the server observes while handling it. -/
inductive Action where
  | joinRoom (sid : String) (taskId : Option String) (user : Option UserPayload)
  | chatMessage (sid : String) (taskId : Option String) (sender : Option UserPayload)
      (message : Option String) (files : Option (List FileMeta)) (now : Nat) (rand : String)
  | disconnect (sid : String)

/-- One dispatcher step: run the corresponding handler. -/
def step (st : ServerState) : Action → ServerState × List Emit
  | .joinRoom sid t u => joinRoomHandler st sid t u
  | .chatMessage sid t s m f now rand => chatMessageHandler st sid t s m f now rand
  | .disconnect sid => disconnectStep st sid

/-- Run a trace of events from a given state. -/
def runState (st : ServerState) : List Action → ServerState
  | [] => st
  | a :: rest => runState (step st a).1 rest

/-- The server's initial state: no histories, no room users, every socket
fresh (socket.io initialises `socket.rooms` with the socket's id room). -/
def initState : ServerState :=
  { chatHistories := fun _ => []
    roomUsers := fun _ => []
    sockets := fun sid => { userData := none, rooms := [sid] } }

/-- Run a trace from the initial state. -/
def run (tr : List Action) : ServerState := runState initState tr

/-- Validity of a `chat message` payload, exactly the handler's check. -/
def sendValid (taskId : Option String) (sender : Option UserPayload) : Bool :=
  match taskId, sender with
  | some tid, some sndr => !(falsy (some tid) || falsy sndr.auid || falsy sndr.name)
  | _, _ => false

/-- The messages successfully sent to `room` over a trace, in arrival
order (a pure function of the trace: `msgData` only depends on the
payload and the observed timestamp/random draw). -/
def sentTo (room : String) : List Action → List MsgData
  | [] => []
  | .chatMessage _ (some tid) (some sndr) message files now rand :: rest =>
    if sendValid (some tid) (some sndr) && (tid == room) then
      mkMsgData tid sndr message files now rand :: sentTo room rest
    else sentTo room rest
  | _ :: rest => sentTo room rest

/-- The most recent `n` entries of a list (all of it when shorter). -/
def lastN (n : Nat) {α : Type} (l : List α) : List α := l.drop (l.length - n)

/-! ### Upload pipeline (`server.js` lines 47-127) -/

/-- An uploaded file as seen by multer: declared original name, declared
MIME type, byte size. -/
structure UFile where
  originalname : String
  mimetype : String
  size : Nat
deriving DecidableEq

/-- Characters kept by `originalname.replace(/[^a-zA-Z0-9._-]/g, '')`. -/
def isSafeChar (c : Char) : Bool :=
  (('a' ≤ c && c ≤ 'z') || ('A' ≤ c && c ≤ 'Z') || ('0' ≤ c && c ≤ '9')
    || c == '.' || c == '_' || c == '-')

/-- `safeOriginalName` from the disk-storage `filename` callback. -/
def safeOriginalName (name : String) : String :=
  String.mk (name.data.filter isSafeChar)

/-- The stored filename: `` `${Date.now()}-${Math.round(Math.random() * 1E9)}-${safeOriginalName}` ``. -/
def uploadFilename (now rand : Nat) (originalname : String) : String :=
  natToDec now ++ "-" ++ natToDec rand ++ "-" ++ safeOriginalName originalname

def UPLOADS_DIR_NAME : String := "uploads"

/-- The public URL of a stored file:
`` `${APP_BASE_URL}/${UPLOADS_DIR_NAME}/${file.filename}` ``. -/
def fileUrl (base filename : String) : String :=
  base ++ "/" ++ UPLOADS_DIR_NAME ++ "/" ++ filename

/-- The MIME allow-list for chat attachments. -/
def ALLOWED_MIME_PATTERNS_CHAT : List String :=
  ["image/",
   "application/pdf",
   "application/msword",
   "application/vnd.openxmlformats-officedocument.wordprocessingml.document",
   "application/vnd.ms-excel",
   "application/vnd.openxmlformats-officedocument.spreadsheetml.sheet",
   "application/vnd.ms-powerpoint",
   "application/vnd.openxmlformats-officedocument.presentationml.presentation",
   "text/plain",
   "application/zip",
   "application/x-rar-compressed",
   "application/octet-stream"]

/-- One allow-list entry check: an entry ending in `/` is a type prefix
(`mimetype.startsWith(pattern)`), any other entry is an exact match. -/
def patternMatches (mimetype pattern : String) : Bool :=
  if pattern.data.getLast? == some '/' then pattern.data.isPrefixOf mimetype.data
  else mimetype == pattern

/-- The `fileFilter` decision: accepted iff some allow-list entry matches
the declared MIME type. The original name is never consulted. -/
def fileFilterAccepts (f : UFile) : Bool :=
  ALLOWED_MIME_PATTERNS_CHAT.any (patternMatches f.mimetype)

/-- multer's per-file `limits.fileSize` bound: 15 MB. -/
def MAX_FILE_SIZE : Nat := 15 * 1024 * 1024

/-- Errors an upload call can fail with: multer's file-count and
file-size limit errors, the `Error` thrown by this server's `fileFilter`,
and the route's own empty-upload rejection. -/
inductive UploadError where
  | limitUnexpectedFile
  | fileTypeNotAllowed (mimetype : String)
  | limitFileSize
  | noFiles
deriving DecidableEq

/-- Sequential multer scan of the incoming files, with `filesLeft`
remaining slots for the field (5 for `upload.array('files', 5)`). For
each file, multer's wrapped filter first checks the remaining count (a
`LIMIT_UNEXPECTED_FILE` `MulterError` once it is exhausted), then runs
this server's `fileFilter` (whose `Error` fails the whole call), and the
accepted file's write is subject to `limits.fileSize`. -/
def multerScan (filesLeft : Nat) : List UFile → Option UploadError
  | [] => none
  | f :: rest =>
    if filesLeft = 0 then some UploadError.limitUnexpectedFile
    else if !(fileFilterAccepts f) then some (UploadError.fileTypeNotAllowed f.mimetype)
    else if MAX_FILE_SIZE < f.size then some UploadError.limitFileSize
    else multerScan (filesLeft - 1) rest

/-- Result of a `POST /upload` call: HTTP status, the error (if any), the
response `files` array, and the storage names persisted on disk once the
call completes (multer removes every already-written file of a call that
errors, so a failed call persists nothing). -/
structure UploadResponse where
  status : Nat
  error : Option UploadError
  files : List FileMeta
  persisted : List String
deriving DecidableEq

/-- The `POST /upload` route: `upload.array('files', 5)` followed by the
route's error branches (any multer/filter error → 400; no surviving files
→ 400; otherwise 200 with name/url/type/size for each file). `stamps`
are the `(Date.now(), Math.round(Math.random() * 1E9))` draws observed
while storing each file. -/
def uploadRoute (base : String) (stamps : List (Nat × Nat)) (files : List UFile) :
    UploadResponse :=
  match multerScan 5 files with
  | some e => { status := 400, error := some e, files := [], persisted := [] }
  | none =>
    if files.isEmpty then
      { status := 400, error := some UploadError.noFiles, files := [], persisted := [] }
    else
      { status := 200
        error := none
        files := (files.zip stamps).map (fun p =>
          { name := p.1.originalname
            url := fileUrl base (uploadFilename p.2.1 p.2.2 p.1.originalname)
            type := p.1.mimetype
            size := p.1.size })
        persisted := (files.zip stamps).map (fun p =>
          uploadFilename p.2.1 p.2.2 p.1.originalname) }

/-- A file that multer accepts without error: allowed type, within the
size limit. -/
def uploadClean (f : UFile) : Bool :=
  fileFilterAccepts f && decide (f.size ≤ MAX_FILE_SIZE)

/-- Validity of a `join room` payload, exactly the handler's check. -/
def joinValid (taskId : Option String) (user : Option UserPayload) : Bool :=
  match taskId, user with
  | some tid, some u => !(falsy (some tid) || falsy u.auid || falsy u.name)
  | _, _ => false

/-- Whether an emitted event is a room broadcast. -/
def Emit.isBroadcast : Emit → Bool
  | .toRoom _ _ => true
  | .toSocket _ _ => false

/-- Whether an emitted event is a `user left` event. -/
def Emit.isUserLeft : Emit → Bool
  | .toRoom _ (ClientEvent.userLeft _ _) => true
  | .toSocket _ (ClientEvent.userLeft _ _) => true
  | _ => false

/-- The identity used in the disconnect scenario. -/
def annUser : UserPayload := { auid := some "a1", name := some "Ann" }

/-- A trace in which connection `s1` joins rooms `A` and `B`. -/
def twoRoomTrace : List Action :=
  [Action.joinRoom "s1" (some "A") (some annUser),
   Action.joinRoom "s1" (some "B") (some annUser)]

/-! ## Helper lemmas -/

theorem upd_self {α : Type} (f : String → α) (k : String) (v : α) : upd f k v k = v := by
  simp [upd]

theorem upd_other {α : Type} (f : String → α) (k k' : String) (v : α) (h : k' ≠ k) :
    upd f k v k' = f k' := by
  simp [upd, h]

theorem lastN_length (n : Nat) {α : Type} (l : List α) :
    (lastN n l).length = min l.length n := by
  simp [lastN]; omega

theorem lastN_of_length_le {n : Nat} {α : Type} {l : List α} (h : l.length ≤ n) :
    lastN n l = l := by
  have h0 : l.length - n = 0 := by omega
  simp [lastN, h0]

theorem lastN_append (n : Nat) {α : Type} (l l2 : List α) :
    lastN n (lastN n l ++ l2) = lastN n (l ++ l2) := by
  simp only [lastN, List.length_append, List.length_drop]
  rw [List.drop_append_eq_append_drop, List.drop_append_eq_append_drop, List.drop_drop]
  simp only [List.length_drop]
  congr 1
  · congr 1
    omega
  · congr 1
    omega

theorem pushBounded_eq_lastN (h : List MsgData) (m : MsgData) :
    pushBounded h m = lastN MAX_HISTORY_LENGTH (h ++ [m]) := by
  by_cases hc : MAX_HISTORY_LENGTH < (h ++ [m]).length
  · simp only [pushBounded, lastN, hc, if_pos]
  · have h0 : (h ++ [m]).length - MAX_HISTORY_LENGTH = 0 := by
      simp only [List.length_append, List.length_cons, List.length_nil] at hc ⊢
      omega
    simp only [pushBounded, lastN, hc, if_neg, not_false_iff, h0, List.drop_zero]

/-- A join never changes any room's history (the lazy `[]` initialisation
is a no-op in the map model). -/
theorem joinRoomHandler_chatHistories (st : ServerState) (sid : String)
    (taskId : Option String) (user : Option UserPayload) (room : String) :
    ((joinRoomHandler st sid taskId user).1).chatHistories room = st.chatHistories room := by
  cases taskId <;> cases user <;> simp only [joinRoomHandler] <;> try rfl
  split <;> rfl

/-- A disconnect never changes any room's history. -/
theorem disconnectStep_chatHistories (st : ServerState) (sid room : String) :
    ((disconnectStep st sid).1).chatHistories room = st.chatHistories room := rfl

/-- Reduction of the `chat message` handler on an invalid payload. -/
theorem chatMessageHandler_invalid (st : ServerState) (sid : String)
    (taskId : Option String) (sender : Option UserPayload) (message : Option String)
    (files : Option (List FileMeta)) (now : Nat) (rand : String)
    (hbad : sendValid taskId sender = false) :
    chatMessageHandler st sid taskId sender message files now rand =
      (st, [sendErrorEmit sid]) := by
  cases taskId <;> cases sender <;> simp_all [chatMessageHandler, sendValid]

/-- State component of the `chat message` handler on a valid payload. -/
theorem chatMessageHandler_valid_chatHistories (st : ServerState) (sid tid : String)
    (sndr : UserPayload) (message : Option String) (files : Option (List FileMeta))
    (now : Nat) (rand : String)
    (hv : sendValid (some tid) (some sndr) = true) :
    (chatMessageHandler st sid (some tid) (some sndr) message files now rand).1.chatHistories =
      upd st.chatHistories tid
        (pushBounded (st.chatHistories tid) (mkMsgData tid sndr message files now rand)) := by
  simp only [sendValid, Bool.not_eq_true'] at hv
  simp [chatMessageHandler, hv]

/-- Emitted events of the `chat message` handler on a valid payload: a
single broadcast of the new message to the room. -/
theorem chatMessageHandler_valid_emits (st : ServerState) (sid tid : String)
    (sndr : UserPayload) (message : Option String) (files : Option (List FileMeta))
    (now : Nat) (rand : String)
    (hv : sendValid (some tid) (some sndr) = true) :
    (chatMessageHandler st sid (some tid) (some sndr) message files now rand).2 =
      [Emit.toRoom tid (ClientEvent.chatMessage (mkMsgData tid sndr message files now rand))] := by
  simp only [sendValid, Bool.not_eq_true'] at hv
  simp [chatMessageHandler, hv]

/-- `sentTo` skips an invalid send. -/
theorem sentTo_cons_invalid (room sid : String) (taskId : Option String)
    (sender : Option UserPayload) (message : Option String) (files : Option (List FileMeta))
    (now : Nat) (rand : String) (rest : List Action)
    (hbad : sendValid taskId sender = false) :
    sentTo room (Action.chatMessage sid taskId sender message files now rand :: rest) =
      sentTo room rest := by
  cases taskId <;> cases sender <;> simp_all [sentTo]

/-- `sentTo` records a valid send to the room in question. -/
theorem sentTo_cons_valid (room sid tid : String) (sndr : UserPayload)
    (message : Option String) (files : Option (List FileMeta)) (now : Nat) (rand : String)
    (rest : List Action) (hv : sendValid (some tid) (some sndr) = true) :
    sentTo room (Action.chatMessage sid (some tid) (some sndr) message files now rand :: rest) =
      if tid = room then mkMsgData tid sndr message files now rand :: sentTo room rest
      else sentTo room rest := by
  simp only [sentTo, hv, Bool.true_and]
  by_cases hr : tid = room
  · simp [hr]
  · simp [hr, beq_eq_false_iff_ne.mpr hr]

/-- History invariant along a trace: each room's history is exactly the
most recent `MAX_HISTORY_LENGTH` of the messages appended so far. -/
theorem runState_chatHistories (room : String) :
    ∀ (tr : List Action) (st : ServerState),
      (st.chatHistories room).length ≤ MAX_HISTORY_LENGTH →
      (runState st tr).chatHistories room =
        lastN MAX_HISTORY_LENGTH (st.chatHistories room ++ sentTo room tr)
  | [], st, hb => by
    simp only [runState, sentTo, List.append_nil, lastN_of_length_le hb]
  | Action.joinRoom sid taskId user :: rest, st, hb => by
    have hj := joinRoomHandler_chatHistories st sid taskId user room
    have ih := runState_chatHistories room rest (joinRoomHandler st sid taskId user).1
      (by rw [hj]; exact hb)
    show (runState (joinRoomHandler st sid taskId user).1 rest).chatHistories room = _
    rw [ih, hj]
    rfl
  | Action.chatMessage sid taskId sender message files now rand :: rest, st, hb => by
    show (runState (chatMessageHandler st sid taskId sender message files now rand).1
      rest).chatHistories room = _
    cases hv : sendValid taskId sender with
    | false =>
      rw [chatMessageHandler_invalid st sid taskId sender message files now rand hv]
      rw [runState_chatHistories room rest st hb]
      cases taskId <;> cases sender <;> simp_all [sentTo]
    | true =>
      match taskId, sender, hv with
      | some tid, some sndr, hv =>
        have hch := chatMessageHandler_valid_chatHistories st sid tid sndr message files now rand hv
        rw [sentTo_cons_valid room sid tid sndr message files now rand rest hv]
        by_cases hr : tid = room
        · subst hr
          have hpush : ((chatMessageHandler st sid (some tid) (some sndr) message files now
              rand).1.chatHistories tid).length ≤ MAX_HISTORY_LENGTH := by
            rw [hch, upd_self, pushBounded_eq_lastN, lastN_length]
            omega
          rw [runState_chatHistories tid rest _ hpush, hch, upd_self, pushBounded_eq_lastN,
            lastN_append, if_pos rfl]
          simp
        · have hstep : ((chatMessageHandler st sid (some tid) (some sndr) message files now
              rand).1.chatHistories room).length ≤ MAX_HISTORY_LENGTH := by
            rw [hch, upd_other _ _ _ _ (Ne.symm hr)]
            exact hb
          rw [runState_chatHistories room rest _ hstep, hch, upd_other _ _ _ _ (Ne.symm hr),
            if_neg hr]
  | Action.disconnect sid :: rest, st, hb => by
    have hd := disconnectStep_chatHistories st sid room
    have ih := runState_chatHistories room rest (disconnectStep st sid).1
      (by rw [hd]; exact hb)
    show (runState (disconnectStep st sid).1 rest).chatHistories room = _
    rw [ih, hd]
    rfl

/-- C1: for every room and every sequence of successful sends, the room's
history always has length at most 100, and the retained entries are
exactly the most recent at-most-100 sent messages in strict arrival order
(oldest evicted first, `lastN`). -/
theorem history_bounded_and_in_arrival_order (tr : List Action) (room : String) :
    ((run tr).chatHistories room).length ≤ 100 ∧
    (run tr).chatHistories room = lastN 100 (sentTo room tr) := by
  have hinit : initState.chatHistories room = [] := rfl
  have h := runState_chatHistories room tr initState
    (by rw [hinit]; simp [MAX_HISTORY_LENGTH])
  rw [hinit, List.nil_append] at h
  have h100 : (run tr).chatHistories room = lastN 100 (sentTo room tr) := h
  refine ⟨?_, h100⟩
  rw [h100, lastN_length]
  omega

/-- Emitted events of the `join room` handler on a valid payload: the
`user joined` broadcast to the whole room, then the history snapshot sent
point-to-point to the joiner only. -/
theorem joinRoomHandler_valid_emits (st : ServerState) (sid tid : String) (u : UserPayload)
    (hv : joinValid (some tid) (some u) = true) :
    (joinRoomHandler st sid (some tid) (some u)).2 =
      [Emit.toRoom tid (ClientEvent.userJoined tid u),
       Emit.toSocket sid (ClientEvent.chatHistory (st.chatHistories tid))] := by
  simp only [joinValid, Bool.not_eq_true'] at hv
  simp [joinRoomHandler, hv]

/-- C2: a connection performing a successful join to room R after a trace
containing k successful sends to R gets exactly one `user joined`
broadcast and one `chat history` emit; the history snapshot goes
point-to-point to the joiner only, holds exactly min(k, 100) messages,
and is the arrival-ordered suffix of the messages sent to R. The
snapshot's payload is a recorded value, so it is not live-updated after
delivery. -/
theorem join_snapshot_min_k_100 (tr : List Action) (sid room : String) (u : UserPayload)
    (hv : joinValid (some room) (some u) = true) :
    (joinRoomHandler (run tr) sid (some room) (some u)).2 =
      [Emit.toRoom room (ClientEvent.userJoined room u),
       Emit.toSocket sid (ClientEvent.chatHistory (lastN 100 (sentTo room tr)))] ∧
    (lastN 100 (sentTo room tr)).length = min (sentTo room tr).length 100 := by
  have hinit : initState.chatHistories room = [] := rfl
  have h := runState_chatHistories room tr initState
    (by rw [hinit]; simp [MAX_HISTORY_LENGTH])
  rw [hinit, List.nil_append] at h
  constructor
  · rw [joinRoomHandler_valid_emits (run tr) sid room u hv]
    rw [show (run tr).chatHistories room = lastN 100 (sentTo room tr) from h]
  · rw [lastN_length]

/-- Witness for C2: after two successful sends to room `A`, a joiner of
`A` receives the two messages as its snapshot. -/
theorem join_snapshot_min_k_100_witness :
    joinValid (some "A") (some { auid := some "a9", name := some "Joy" }) = true ∧
    ((joinRoomHandler
        (run [Action.chatMessage "s1" (some "A") (some { auid := some "a1", name := some "Ann" })
                (some "hi") none 5 "r1",
              Action.chatMessage "s1" (some "A") (some { auid := some "a1", name := some "Ann" })
                (some "again") none 6 "r2"])
        "s2" (some "A") (some { auid := some "a9", name := some "Joy" })).2 =
      [Emit.toRoom "A" (ClientEvent.userJoined "A" { auid := some "a9", name := some "Joy" }),
       Emit.toSocket "s2" (ClientEvent.chatHistory (lastN 100 (sentTo "A"
         [Action.chatMessage "s1" (some "A") (some { auid := some "a1", name := some "Ann" })
            (some "hi") none 5 "r1",
          Action.chatMessage "s1" (some "A") (some { auid := some "a1", name := some "Ann" })
            (some "again") none 6 "r2"])))] ∧
     (lastN 100 (sentTo "A"
         [Action.chatMessage "s1" (some "A") (some { auid := some "a1", name := some "Ann" })
            (some "hi") none 5 "r1",
          Action.chatMessage "s1" (some "A") (some { auid := some "a1", name := some "Ann" })
            (some "again") none 6 "r2"])).length =
       min (sentTo "A"
         [Action.chatMessage "s1" (some "A") (some { auid := some "a1", name := some "Ann" })
            (some "hi") none 5 "r1",
          Action.chatMessage "s1" (some "A") (some { auid := some "a1", name := some "Ann" })
            (some "again") none 6 "r2"]).length 100) :=
  ⟨by decide,
   join_snapshot_min_k_100
     [Action.chatMessage "s1" (some "A") (some { auid := some "a1", name := some "Ann" })
        (some "hi") none 5 "r1",
      Action.chatMessage "s1" (some "A") (some { auid := some "a1", name := some "Ann" })
        (some "again") none 6 "r2"]
     "s2" "A" { auid := some "a9", name := some "Joy" } (by decide)⟩

/-- C3: a `chat message` with a missing/empty task id, sender auid or
sender name leaves the whole server state unchanged (every room history,
every membership, every socket — so the connection is not terminated) and
emits exactly one point-to-point error to the caller, no broadcast. -/
theorem invalid_send_single_error (st : ServerState) (sid : String) (taskId : Option String)
    (sender : Option UserPayload) (message : Option String) (files : Option (List FileMeta))
    (now : Nat) (rand : String)
    (hbad : falsy taskId = true ∨ falsy (sender.bind UserPayload.auid) = true ∨
      falsy (sender.bind UserPayload.name) = true) :
    chatMessageHandler st sid taskId sender message files now rand =
      (st, [sendErrorEmit sid]) ∧
    ((chatMessageHandler st sid taskId sender message files now rand).2).filter
      Emit.isBroadcast = [] := by
  have hs : sendValid taskId sender = false := by
    cases taskId with
    | none => rfl
    | some tid =>
      cases sender with
      | none => rfl
      | some u =>
        simp only [Option.bind] at hbad
        simp only [sendValid]
        rcases hbad with h | h | h <;> simp [h]
  refine ⟨chatMessageHandler_invalid st sid taskId sender message files now rand hs, ?_⟩
  rw [chatMessageHandler_invalid st sid taskId sender message files now rand hs]
  rfl

/-- Witness for C3: a send with a missing `sender.auid` is rejected
point-to-point with no state change. -/
theorem invalid_send_single_error_witness :
    (falsy (some "A") = true ∨
      falsy ((some ({ auid := none, name := some "Ann" } : UserPayload)).bind
        UserPayload.auid) = true ∨
      falsy ((some ({ auid := none, name := some "Ann" } : UserPayload)).bind
        UserPayload.name) = true) ∧
    (chatMessageHandler initState "s1" (some "A")
        (some { auid := none, name := some "Ann" }) (some "hi") none 5 "r1" =
      (initState, [sendErrorEmit "s1"]) ∧
     ((chatMessageHandler initState "s1" (some "A")
        (some { auid := none, name := some "Ann" }) (some "hi") none 5 "r1").2).filter
        Emit.isBroadcast = []) :=
  ⟨by decide,
   invalid_send_single_error initState "s1" (some "A")
     (some { auid := none, name := some "Ann" }) (some "hi") none 5 "r1" (by decide)⟩

/-- C5 counterexample: a connection performs two successful joins with
different identities; afterwards its bound identity is the second one,
not the first-bound one — identity is not immutable for the connection's
lifetime. -/
theorem first_identity_not_kept_cex :
    ((run [Action.joinRoom "s1" (some "A") (some { auid := some "a1", name := some "Ann" }),
           Action.joinRoom "s1" (some "B") (some { auid := some "a2", name := some "Ben" })]).sockets
        "s1").userData = some { auid := some "a2", name := some "Ben" } ∧
    ({ auid := some "a2", name := some "Ben" } : UserPayload) ≠
      { auid := some "a1", name := some "Ann" } ∧
    joinValid (some "A") (some { auid := some "a1", name := some "Ann" }) = true ∧
    joinValid (some "B") (some { auid := some "a2", name := some "Ben" }) = true := by
  decide

/-- C5 amended: `socket.userData` is assigned on every successful join,
so the identity bound to a connection is the one supplied by its most
recent successful join (last join wins), not the first-bound one. -/
theorem join_rebinds_identity (st : ServerState) (sid tid : String) (u : UserPayload)
    (hv : joinValid (some tid) (some u) = true) :
    ((joinRoomHandler st sid (some tid) (some u)).1.sockets sid).userData = some u := by
  simp only [joinValid, Bool.not_eq_true'] at hv
  simp [joinRoomHandler, hv, upd_self]

/-- Witness for the amended C5. -/
theorem join_rebinds_identity_witness :
    joinValid (some "A") (some { auid := some "a7", name := some "Zoe" }) = true ∧
    ((joinRoomHandler initState "s3" (some "A")
        (some { auid := some "a7", name := some "Zoe" })).1.sockets "s3").userData =
      some { auid := some "a7", name := some "Zoe" } :=
  ⟨by decide,
   join_rebinds_identity initState "s3" "A" { auid := some "a7", name := some "Zoe" }
     (by decide)⟩

/-- C10: `chat message` performs no membership check — for a payload with
non-empty task id, sender auid and sender name, even from a connection
that is in no `roomUsers` entry for the room and never joined it, the
message is appended to the room's history (bounded push) and broadcast to
the room. Field validity is the only precondition. -/
theorem send_requires_no_membership (st : ServerState) (sid tid : String) (sndr : UserPayload)
    (message : Option String) (files : Option (List FileMeta)) (now : Nat) (rand : String)
    (hv : sendValid (some tid) (some sndr) = true)
    (hnm : lookupAssoc (st.roomUsers tid) sid = none)
    (hnr : tid ∉ (st.sockets sid).rooms) :
    (chatMessageHandler st sid (some tid) (some sndr) message files now rand).1.chatHistories
        tid =
      pushBounded (st.chatHistories tid) (mkMsgData tid sndr message files now rand) ∧
    (chatMessageHandler st sid (some tid) (some sndr) message files now rand).2 =
      [Emit.toRoom tid (ClientEvent.chatMessage (mkMsgData tid sndr message files now rand))] := by
  refine ⟨?_, chatMessageHandler_valid_emits st sid tid sndr message files now rand hv⟩
  rw [chatMessageHandler_valid_chatHistories st sid tid sndr message files now rand hv,
    upd_self]

/-- Witness for C10: a connection that never joined room `A` still gets
its message appended and broadcast. -/
theorem send_requires_no_membership_witness :
    sendValid (some "A") (some ({ auid := some "a1", name := some "Ann" } : UserPayload)) =
      true ∧
    lookupAssoc (initState.roomUsers "A") "s1" = none ∧
    "A" ∉ (initState.sockets "s1").rooms ∧
    ((chatMessageHandler initState "s1" (some "A")
        (some { auid := some "a1", name := some "Ann" }) (some "hi") none 5 "r1").1.chatHistories
          "A" =
        pushBounded (initState.chatHistories "A")
          (mkMsgData "A" { auid := some "a1", name := some "Ann" } (some "hi") none 5 "r1") ∧
      (chatMessageHandler initState "s1" (some "A")
        (some { auid := some "a1", name := some "Ann" }) (some "hi") none 5 "r1").2 =
        [Emit.toRoom "A" (ClientEvent.chatMessage
          (mkMsgData "A" { auid := some "a1", name := some "Ann" } (some "hi") none 5 "r1"))]) :=
  ⟨by decide, by decide, by decide,
   send_requires_no_membership initState "s1" "A" { auid := some "a1", name := some "Ann" }
     (some "hi") none 5 "r1" (by decide) (by decide) (by decide)⟩

/-- C4 (code bug): after `s1` joins rooms `A` and `B`, the `disconnect`
event produces zero `user left` broadcasts and leaves the stale
`roomUsers` entries in place, because socket.io empties `socket.rooms`
before the `disconnect` handler runs; had the handler been given the
rooms (as the unused `disconnecting` event would), it would have emitted
exactly one `user left` broadcast to `A` and one to `B`, which is the
specified behaviour. -/
theorem disconnect_handler_sees_no_rooms :
    ((disconnectStep (run twoRoomTrace) "s1").2.filter Emit.isUserLeft = []) ∧
    (lookupAssoc ((disconnectStep (run twoRoomTrace) "s1").1.roomUsers "A") "s1" =
      some annUser) ∧
    (lookupAssoc ((disconnectStep (run twoRoomTrace) "s1").1.roomUsers "B") "s1" =
      some annUser) ∧
    ((disconnectHandler (run twoRoomTrace) "s1" (some annUser) ["s1", "A", "B"]).2 =
      [Emit.toRoom "A" (ClientEvent.userLeft "A" annUser),
       Emit.toRoom "B" (ClientEvent.userLeft "B" annUser)]) := by
  decide

/-! ## Decimal representation lemmas -/

theorem digitChar_ne_dash : ∀ d : Nat, d < 10 → Nat.digitChar d ≠ '-' := by decide

theorem digitChar_toNat : ∀ d : Nat, d < 10 → (Nat.digitChar d).toNat = 48 + d := by decide

theorem dash_not_mem_decDigits (n : Nat) : '-' ∉ decDigits n := by
  induction n using Nat.strong_induction_on with
  | _ n ih =>
    unfold decDigits
    split
    · simp
    · rename_i h
      intro hmem
      rcases List.mem_append.mp hmem with h1 | h2
      · exact ih (n / 10) (Nat.div_lt_self (Nat.pos_of_ne_zero h) (by decide)) h1
      · exact digitChar_ne_dash (n % 10) (Nat.mod_lt n (by decide))
          (List.mem_singleton.mp h2).symm

theorem decToNat_append_digit (l : List Char) (c : Char) :
    decToNat (l ++ [c]) = 10 * decToNat l + (c.toNat - 48) := by
  simp [decToNat, List.foldl_append]

theorem decToNat_decDigits (n : Nat) : decToNat (decDigits n) = n := by
  induction n using Nat.strong_induction_on with
  | _ n ih =>
    unfold decDigits
    split
    · rename_i h
      simp [decToNat, h]
    · rename_i h
      rw [decToNat_append_digit,
        ih (n / 10) (Nat.div_lt_self (Nat.pos_of_ne_zero h) (by decide)),
        digitChar_toNat (n % 10) (Nat.mod_lt n (by decide))]
      omega

theorem natToDec_inj {m n : Nat} (h : natToDec m = natToDec n) : m = n := by
  have hd := congrArg String.data h
  unfold natToDec at hd
  by_cases hm : m = 0 <;> by_cases hn : n = 0
  · rw [hm, hn]
  · exfalso
    rw [if_pos hm, if_neg hn] at hd
    have h0 : decToNat ("0".data) = decToNat (decDigits n) := congrArg decToNat hd
    rw [decToNat_decDigits] at h0
    exact hn (h0.symm.trans (by decide))
  · exfalso
    rw [if_neg hm, if_pos hn] at hd
    have h0 : decToNat (decDigits m) = decToNat ("0".data) := congrArg decToNat hd
    rw [decToNat_decDigits] at h0
    exact hm (h0.trans (by decide))
  · rw [if_neg hm, if_neg hn] at hd
    have h0 : decToNat (decDigits m) = decToNat (decDigits n) := congrArg decToNat hd
    rw [decToNat_decDigits, decToNat_decDigits] at h0
    exact h0

theorem dash_not_mem_natToDec (n : Nat) : '-' ∉ (natToDec n).data := by
  unfold natToDec
  split
  · decide
  · exact dash_not_mem_decDigits n

/-- Splitting at the first `-`: if neither prefix contains a dash, equal
dash-separated concatenations have equal components. -/
theorem append_dash_cons_inj (r1 r2 : List Char) :
    ∀ l1 l2 : List Char, '-' ∉ l1 → '-' ∉ l2 →
      l1 ++ '-' :: r1 = l2 ++ '-' :: r2 → l1 = l2 ∧ r1 = r2 := by
  intro l1
  induction l1 with
  | nil =>
    intro l2 h1 h2 h
    cases l2 with
    | nil =>
      simp only [List.nil_append] at h
      exact ⟨rfl, (List.cons.inj h).2⟩
    | cons c l2' =>
      simp only [List.nil_append, List.cons_append] at h
      obtain ⟨hc, -⟩ := List.cons.inj h
      subst hc
      exact absurd (List.mem_cons_self _ _) h2
  | cons c l1' ih =>
    intro l2 h1 h2 h
    cases l2 with
    | nil =>
      simp only [List.nil_append, List.cons_append] at h
      obtain ⟨hc, -⟩ := List.cons.inj h
      subst hc
      exact absurd (List.mem_cons_self _ _) h1
    | cons c2 l2' =>
      simp only [List.cons_append] at h
      obtain ⟨hc, ht⟩ := List.cons.inj h
      obtain ⟨he, hr⟩ := ih l2' (fun hm => h1 (List.mem_cons_of_mem _ hm))
        (fun hm => h2 (List.mem_cons_of_mem _ hm)) ht
      exact ⟨by rw [hc, he], hr⟩

theorem string_append_right_inj {a s1 s2 : String} (h : a ++ s1 = a ++ s2) : s1 = s2 := by
  have hd := congrArg String.data h
  rw [String.data_append, String.data_append] at hd
  exact String.ext (List.append_cancel_left hd)

theorem uploadFilename_data (t r : Nat) (n : String) :
    (uploadFilename t r n).data =
      (natToDec t).data ++ '-' :: ((natToDec r).data ++ '-' :: (safeOriginalName n).data) := by
  have hdash : ("-" : String).data = ['-'] := rfl
  simp [uploadFilename, String.data_append, hdash]

theorem uploadFilename_inj {t1 r1 t2 r2 : Nat} {n1 n2 : String}
    (h : uploadFilename t1 r1 n1 = uploadFilename t2 r2 n2) : t1 = t2 ∧ r1 = r2 := by
  have hd := congrArg String.data h
  rw [uploadFilename_data, uploadFilename_data] at hd
  obtain ⟨h1, h2⟩ := append_dash_cons_inj _ _ _ _
    (dash_not_mem_natToDec t1) (dash_not_mem_natToDec t2) hd
  obtain ⟨h3, -⟩ := append_dash_cons_inj _ _ _ _
    (dash_not_mem_natToDec r1) (dash_not_mem_natToDec r2) h2
  exact ⟨natToDec_inj (String.ext h1), natToDec_inj (String.ext h3)⟩

theorem msgId_data (t : Nat) (r : String) :
    (msgId t r).data = 'm' :: 's' :: 'g' :: '-' :: ((natToDec t).data ++ '-' :: r.data) := by
  have hm : ("msg-" : String).data = ['m', 's', 'g', '-'] := rfl
  have hdash : ("-" : String).data = ['-'] := rfl
  simp [msgId, String.data_append, hm, hdash]

theorem msgId_inj {t1 t2 : Nat} {r1 r2 : String} (h : msgId t1 r1 = msgId t2 r2) :
    t1 = t2 ∧ r1 = r2 := by
  have hd := congrArg String.data h
  rw [msgId_data, msgId_data] at hd
  simp only [List.cons.injEq, true_and] at hd
  obtain ⟨h1, h2⟩ := append_dash_cons_inj _ _ _ _
    (dash_not_mem_natToDec t1) (dash_not_mem_natToDec t2) hd
  exact ⟨natToDec_inj (String.ext h1), String.ext h2⟩

/-- C8 counterexample: the storage name is a pure function of the
timestamp, the random draw and the original name, so two accepted uploads
that share all three (same millisecond, same `Math.random()` value, same
name) produce the same storage name and the same URL — the claimed
unconditional distinctness does not hold. -/
theorem upload_filename_collision_cex :
    uploadFilename 1700000000000 123456789 "report.pdf" =
      uploadFilename 1700000000000 123456789 "report.pdf" ∧
    fileUrl "http://localhost:10000" (uploadFilename 1700000000000 123456789 "report.pdf") =
      fileUrl "http://localhost:10000" (uploadFilename 1700000000000 123456789 "report.pdf") :=
  ⟨rfl, rfl⟩

/-- C8 amended: two accepted uploads get distinct storage names — and
therefore distinct URLs — whenever their `(timestamp, random)`
discriminator pairs differ (which is what the timestamp-plus-random
prefix actually guarantees; equal pairs collide even for equal names). -/
theorem upload_filenames_distinct (base : String) (t1 r1 t2 r2 : Nat) (n1 n2 : String)
    (h : (t1, r1) ≠ (t2, r2)) :
    uploadFilename t1 r1 n1 ≠ uploadFilename t2 r2 n2 ∧
    fileUrl base (uploadFilename t1 r1 n1) ≠ fileUrl base (uploadFilename t2 r2 n2) := by
  have hname : uploadFilename t1 r1 n1 ≠ uploadFilename t2 r2 n2 := by
    intro he
    obtain ⟨ht, hr⟩ := uploadFilename_inj he
    exact h (by rw [ht, hr])
  exact ⟨hname, fun hu => hname (string_append_right_inj hu)⟩

/-- Witness for the amended C8: different timestamps, same original name. -/
theorem upload_filenames_distinct_witness :
    ((1700000000000, 123456789) : Nat × Nat) ≠ (1700000000001, 123456789) ∧
    (uploadFilename 1700000000000 123456789 "a.txt" ≠
        uploadFilename 1700000000001 123456789 "a.txt" ∧
      fileUrl "http://localhost:10000" (uploadFilename 1700000000000 123456789 "a.txt") ≠
        fileUrl "http://localhost:10000" (uploadFilename 1700000000001 123456789 "a.txt")) :=
  ⟨by decide,
   upload_filenames_distinct "http://localhost:10000" 1700000000000 123456789
     1700000000001 123456789 "a.txt" "a.txt" (by decide)⟩

/-- C9 counterexample: the message id is a pure function of the timestamp
and the random draw, so two distinct messages created in the same
millisecond with the same `Math.random()` draw share one id — ids are not
unique for the process lifetime. -/
theorem msg_id_collision_cex :
    (mkMsgData "A" { auid := some "a1", name := some "Ann" } (some "hello") none
        5 "abc123z").id =
      (mkMsgData "B" { auid := some "a1", name := some "Ann" } (some "bye") none
        5 "abc123z").id ∧
    mkMsgData "A" { auid := some "a1", name := some "Ann" } (some "hello") none
        5 "abc123z" ≠
      mkMsgData "B" { auid := some "a1", name := some "Ann" } (some "bye") none
        5 "abc123z" := by
  refine ⟨rfl, fun h => ?_⟩
  have := congrArg MsgData.taskId h
  simp only [mkMsgData] at this
  exact absurd this (by decide)

/-- C9 amended: two generated message ids are distinct whenever their
`(timestamp, random draw)` pairs differ; equal pairs yield equal ids. -/
theorem msg_ids_distinct (t1 t2 : Nat) (r1 r2 : String) (h : (t1, r1) ≠ (t2, r2)) :
    msgId t1 r1 ≠ msgId t2 r2 := by
  intro he
  obtain ⟨ht, hr⟩ := msgId_inj he
  exact h (by rw [ht, hr])

/-- Witness for the amended C9. -/
theorem msg_ids_distinct_witness :
    ((5, "abc123z") : Nat × String) ≠ (5, "zzz999a") ∧
    msgId 5 "abc123z" ≠ msgId 5 "zzz999a" :=
  ⟨by decide, msg_ids_distinct 5 5 "abc123z" "zzz999a" (by decide)⟩

/-- C6 counterexample: a file declared `application/octet-stream` whose
original name ends in `.exe` is *accepted* by the filter (the claim says
it is rejected with an unsupported-type error); the declared `.docx` file
is accepted too, but by the same exact MIME match, not by any extension
fallback — the filter never reads the original name. -/
theorem octet_stream_exe_accepted_cex :
    fileFilterAccepts
      { originalname := "setup.exe", mimetype := "application/octet-stream",
        size := 1000 } = true ∧
    fileFilterAccepts
      { originalname := "report.docx", mimetype := "application/octet-stream",
        size := 1000 } = true := by
  decide

/-- C6 amended: every file declared `application/octet-stream` is
accepted regardless of its original name's extension, because that exact
type is itself an allow-list entry; no extension fallback exists. -/
theorem octet_stream_always_accepted (name : String) (size : Nat) :
    fileFilterAccepts
      { originalname := name, mimetype := "application/octet-stream", size := size } =
      true := rfl

/-- With fewer remaining slots than incoming files, the multer scan stops
with some error. -/
theorem multerScan_isSome_of_lt :
    ∀ (files : List UFile) (k : Nat), k < files.length → (multerScan k files).isSome = true := by
  intro files
  induction files with
  | nil =>
    intro k hk
    simp at hk
  | cons f rest ih =>
    intro k hk
    unfold multerScan
    by_cases h0 : k = 0
    · rw [if_pos h0]
      rfl
    · rw [if_neg h0]
      cases hacc : fileFilterAccepts f with
      | false =>
        rw [if_pos (by decide)]
        rfl
      | true =>
        rw [if_neg (by decide)]
        by_cases hs : MAX_FILE_SIZE < f.size
        · rw [if_pos hs]
          rfl
        · rw [if_neg hs]
          exact ih (k - 1) (by simp only [List.length_cons] at hk; omega)

/-- When every incoming file is individually acceptable, overflowing the
slot count is reported as the file-count limit error. -/
theorem multerScan_limit_of_clean :
    ∀ (files : List UFile) (k : Nat), k < files.length → files.all uploadClean = true →
      multerScan k files = some UploadError.limitUnexpectedFile := by
  intro files
  induction files with
  | nil =>
    intro k hk _
    simp at hk
  | cons f rest ih =>
    intro k hk hc
    simp only [List.all_cons, Bool.and_eq_true] at hc
    obtain ⟨hf, hrest⟩ := hc
    simp only [uploadClean, Bool.and_eq_true, decide_eq_true_eq] at hf
    obtain ⟨hacc, hsize⟩ := hf
    unfold multerScan
    by_cases h0 : k = 0
    · rw [if_pos h0]
    · rw [if_neg h0, if_neg (by rw [hacc]; decide), if_neg (Nat.not_lt.mpr hsize)]
      exact ih (k - 1) (by simp only [List.length_cons] at hk; omega) hrest

/-- C7: an upload call with six or more files fails whole (status 400)
and persists nothing; when the six files are individually acceptable, the
reported error is multer's file-count limit (an earlier file that is
itself rejected fails the call — still 400, still nothing persisted —
with its own error instead). -/
theorem six_files_rejected_nothing_persisted (base : String) (stamps : List (Nat × Nat))
    (files : List UFile) (h6 : 6 ≤ files.length) :
    (uploadRoute base stamps files).status = 400 ∧
    (uploadRoute base stamps files).persisted = [] ∧
    (uploadRoute base stamps files).files = [] ∧
    (files.all uploadClean = true →
      (uploadRoute base stamps files).error = some UploadError.limitUnexpectedFile) := by
  have h5 : 5 < files.length := by omega
  have hsome := multerScan_isSome_of_lt files 5 h5
  rcases hscan : multerScan 5 files with _ | e
  · rw [hscan] at hsome
    simp at hsome
  · unfold uploadRoute
    rw [hscan]
    refine ⟨rfl, rfl, rfl, fun hc => ?_⟩
    have hlim := multerScan_limit_of_clean files 5 h5 hc
    rw [hscan] at hlim
    simp only [Option.some.injEq] at hlim
    rw [hlim]

/-- Witness for C7: six well-typed small PDFs in one call. -/
theorem six_files_rejected_nothing_persisted_witness :
    6 ≤ (List.replicate 6
      ({ originalname := "a.pdf", mimetype := "application/pdf", size := 10 } : UFile)).length ∧
    ((uploadRoute "http://localhost:10000" [] (List.replicate 6
        ({ originalname := "a.pdf", mimetype := "application/pdf", size := 10 } : UFile))).status =
        400 ∧
      (uploadRoute "http://localhost:10000" [] (List.replicate 6
        ({ originalname := "a.pdf", mimetype := "application/pdf", size := 10 } : UFile))).persisted =
        [] ∧
      (uploadRoute "http://localhost:10000" [] (List.replicate 6
        ({ originalname := "a.pdf", mimetype := "application/pdf", size := 10 } : UFile))).files =
        [] ∧
      ((List.replicate 6
          ({ originalname := "a.pdf", mimetype := "application/pdf", size := 10 } : UFile)).all
          uploadClean = true →
        (uploadRoute "http://localhost:10000" [] (List.replicate 6
          ({ originalname := "a.pdf", mimetype := "application/pdf", size := 10 } : UFile))).error =
          some UploadError.limitUnexpectedFile)) :=
  ⟨by decide,
   six_files_rejected_nothing_persisted "http://localhost:10000" []
     (List.replicate 6
       ({ originalname := "a.pdf", mimetype := "application/pdf", size := 10 } : UFile))
     (by decide)⟩

end Chat
